import Mathlib

/-!
Shallow embedding of the `DNSSpoofDetector` class from
`DNS_Spoofing_and_Detection_Tool.ipynb`.

The detector keeps two pieces of session state: `cache` (the Python dict
`self.cache`, mapping a queried name to the first answer address seen for it)
and `suspicious_responses` (the Python list of `(qname, cached, rdata)`
triples).  Names and addresses are the Python strings, modelled as `String`.

External collaborators (the scapy capture source, the `dns.resolver` client,
the `whois` and `ipwhois` clients) are modelled as oracle functions passed as
parameters; an oracle returning `none` models the library call raising an
exception, which the Python code catches.
-/

/-- A captured packet as `dns_detect` sees it: whether it has a `DNSRR`
layer, the decoded `DNSQR` qname and the `DNSRR` rdata. -/
structure Packet where
  hasDNSRR : Bool
  qname : String
  rdata : String
deriving DecidableEq

/-- The mutable state of a `DNSSpoofDetector` instance: the dict
`self.cache` (as an association list with unique keys) and the list
`self.suspicious_responses` of `(qname, cached_ip, received_ip)` triples. -/
structure DetectorState where
  cache : List (String × String)
  suspicious_responses : List (String × String × String)
deriving DecidableEq

/-- `__init__`: `self.cache = {}` and `self.suspicious_responses = []`. -/
def initState : DetectorState := { cache := [], suspicious_responses := [] }

/-- Dictionary lookup: models `qname in self.cache`, `self.cache[qname]` and
`self.cache.get(domain)` at once (keys are unique by construction, so the
first match is the only match). -/
def cacheGet : List (String × String) → String → Option String
  | [], _ => none
  | (k, v) :: rest, n => if k = n then some v else cacheGet rest n

/-- `DNSSpoofDetector.dns_detect(self, packet)`:
if the packet has a `DNSRR` layer, look the qname up in the cache; on a hit
with a differing rdata, append `(qname, cached, rdata)` to
`suspicious_responses`; on a miss, store `cache[qname] = rdata`; a hit with
an equal rdata does nothing. -/
def dns_detect (s : DetectorState) (p : Packet) : DetectorState :=
  if p.hasDNSRR then
    match cacheGet s.cache p.qname with
    | some cached =>
        if cached ≠ p.rdata then
          { s with suspicious_responses :=
              s.suspicious_responses ++ [(p.qname, cached, p.rdata)] }
        else
          s
    | none => { s with cache := (p.qname, p.rdata) :: s.cache }
  else
    s

/-- Run `dns_detect` over a sequence of response records (packets that do
carry a `DNSRR` layer), starting from an arbitrary state. -/
def detectFrom (s : DetectorState) (rs : List (String × String)) : DetectorState :=
  rs.foldl (fun t r => dns_detect t { hasDNSRR := true, qname := r.1, rdata := r.2 }) s

/-- A capture session: process a sequence of response records starting from
the freshly initialised state. -/
def processRecords (rs : List (String × String)) : DetectorState :=
  detectFrom initState rs

/-- The answer address of the first record in `rs` that carries name `n`
(a specification-side helper for the first-write-wins property). -/
def firstAnswer : List (String × String) → String → Option String
  | [], _ => none
  | r :: rs, n => if r.1 = n then some r.2 else firstAnswer rs n

/-- Outcome of `self.resolver.resolve(domain, 'A')`: a successful answer,
the `dns.resolver.NXDOMAIN` exception, or any other exception. -/
inductive ResolveOutcome where
  | success (addr : String)
  | nxdomain
  | failure (msg : String)
deriving DecidableEq

/-- Result of `whois.whois(domain)` when the call does not raise. -/
structure WhoisInfo where
  registrar : String
  name_servers : List String
deriving DecidableEq

/-- Result of `IPWhois(ip).lookup_rdap()` when the call does not raise; the
`asn` and `asn_description` dict entries may each be absent (`.get`). -/
structure AsnInfo where
  asn : Option String
  asn_description : Option String
deriving DecidableEq

/-- What `trace_actual_dns` reports: one field per `try` block, present
exactly when that block's library call did not raise. -/
structure AttributionReport where
  domainInfo : Option WhoisInfo
  realIpInfo : Option AsnInfo
  spoofedIpInfo : Option AsnInfo
deriving DecidableEq

/-- `DNSSpoofDetector.trace_actual_dns(self, domain, real_ip, spoofed_ip)`:
three independent `try`/`except` blocks — a WHOIS lookup for the domain, an
RDAP lookup for `real_ip`, an RDAP lookup for `spoofed_ip`.  An oracle
returning `none` models the exception path of that block. -/
def trace_actual_dns (w : String → Option WhoisInfo) (a : String → Option AsnInfo)
    (domain real_ip spoofed_ip : String) : AttributionReport :=
  { domainInfo := w domain
    realIpInfo := a real_ip
    spoofedIpInfo := a spoofed_ip }

/-- `trace_actual_dns` as a state transformer over the detector state: the
method only prints and performs lookups, so it returns the state it was
given. -/
def trace_actual_dns_st (w : String → Option WhoisInfo) (a : String → Option AsnInfo)
    (s : DetectorState) (domain real_ip spoofed_ip : String) :
    DetectorState × AttributionReport :=
  (s, trace_actual_dns w a domain real_ip spoofed_ip)

/-- Observable outcome of one `verify_dns` call: the returned value
(`real_ip` on success, `None` on either exception), whether the
"Confirmed DNS spoofing" branch ran, and the arguments passed to
`trace_actual_dns` when it did. -/
structure VerifyOutcome where
  result : Option String
  confirmed : Bool
  traceArgs : Option (String × String × String)
deriving DecidableEq

/-- `DNSSpoofDetector.verify_dns(self, domain)`:
resolve `domain` via the trusted resolver; on success read
`cached_ip = self.cache.get(domain)` and test
`if cached_ip and real_ip != cached_ip` — per Python truthiness this is
false when `cached_ip` is `None` and also when it is the empty string.
When the test holds, call `trace_actual_dns(domain, real_ip, cached_ip)`
and return `real_ip`; otherwise just return `real_ip`.  `NXDOMAIN` and any
other exception are caught and return `None`. -/
def verify_dns (resolve : String → ResolveOutcome)
    (w : String → Option WhoisInfo) (a : String → Option AsnInfo)
    (s : DetectorState) (domain : String) : DetectorState × VerifyOutcome :=
  match resolve domain with
  | .success real_ip =>
      match cacheGet s.cache domain with
      | some cached_ip =>
          if cached_ip ≠ "" ∧ real_ip ≠ cached_ip then
            let t := trace_actual_dns_st w a s domain real_ip cached_ip
            (t.1, { result := some real_ip, confirmed := true,
                    traceArgs := some (domain, real_ip, cached_ip) })
          else
            (s, { result := some real_ip, confirmed := false, traceArgs := none })
      | none => (s, { result := some real_ip, confirmed := false, traceArgs := none })
  | .nxdomain => (s, { result := none, confirmed := false, traceArgs := none })
  | .failure _ => (s, { result := none, confirmed := false, traceArgs := none })

/-- The `max_workers` bound of the `ThreadPoolExecutor` in
`verify_suspicious_responses`. -/
def max_workers : Nat := 5

/-- The list comprehension
`[executor.submit(self.verify_dns, domain) for domain, _, _ in self.suspicious_responses]`:
one task per suspicion record, carrying only the record's name. -/
def verificationTasks (s : DetectorState) : List String :=
  s.suspicious_responses.map (fun r => r.1)

/-- Run the dispatched `verify_dns` tasks in order, threading the shared
detector state through them, and collect every task's outcome. -/
def runTasks (resolve : String → ResolveOutcome)
    (w : String → Option WhoisInfo) (a : String → Option AsnInfo)
    (s : DetectorState) : List String → DetectorState × List VerifyOutcome
  | [] => (s, [])
  | d :: ds =>
      let x := verify_dns resolve w a s d
      let rest := runTasks resolve w a x.1 ds
      (rest.1, x.2 :: rest.2)

/-- `DNSSpoofDetector.verify_suspicious_responses(self)`: submit one
`verify_dns` task per entry of `self.suspicious_responses` and wait for all
of them (`concurrent.futures.wait`). -/
def verify_suspicious_responses (resolve : String → ResolveOutcome)
    (w : String → Option WhoisInfo) (a : String → Option AsnInfo)
    (s : DetectorState) : DetectorState × List VerifyOutcome :=
  runTasks resolve w a s (verificationTasks s)

/-! ### Basic lemmas about the capture phase -/

theorem dns_detect_record (s : DetectorState) (n a : String) :
    dns_detect s { hasDNSRR := true, qname := n, rdata := a } =
      match cacheGet s.cache n with
      | some cached =>
          if cached ≠ a then
            { s with suspicious_responses := s.suspicious_responses ++ [(n, cached, a)] }
          else
            s
      | none => { s with cache := (n, a) :: s.cache } := rfl

theorem detectFrom_cons (s : DetectorState) (r : String × String) (rs : List (String × String)) :
    detectFrom s (r :: rs) =
      detectFrom (dns_detect s { hasDNSRR := true, qname := r.1, rdata := r.2 }) rs := rfl

/-- Step shape: cache hit with a diverging answer appends one suspicion. -/
theorem detect_hit_ne (s : DetectorState) (n a c : String)
    (h : cacheGet s.cache n = some c) (hne : c ≠ a) :
    dns_detect s { hasDNSRR := true, qname := n, rdata := a }
      = { s with suspicious_responses := s.suspicious_responses ++ [(n, c, a)] } := by
  simp [dns_detect, h, hne]

/-- Step shape: cache hit with the same answer is a no-op. -/
theorem detect_hit_eq (s : DetectorState) (n a c : String)
    (h : cacheGet s.cache n = some c) (he : c = a) :
    dns_detect s { hasDNSRR := true, qname := n, rdata := a } = s := by
  simp [dns_detect, h, he]

/-- Step shape: cache miss inserts the record's answer. -/
theorem detect_miss (s : DetectorState) (n a : String)
    (h : cacheGet s.cache n = none) :
    dns_detect s { hasDNSRR := true, qname := n, rdata := a }
      = { s with cache := (n, a) :: s.cache } := by
  simp [dns_detect, h]

/-- A cache entry survives any single `dns_detect` step unchanged. -/
theorem cacheGet_dns_detect (s : DetectorState) (p : Packet) (n c : String)
    (h : cacheGet s.cache n = some c) :
    cacheGet (dns_detect s p).cache n = some c := by
  unfold dns_detect
  split
  · cases hm : cacheGet s.cache p.qname with
    | some cached => simp only [hm]; split <;> exact h
    | none =>
        simp only [hm, cacheGet]
        by_cases hq : p.qname = n
        · rw [hq] at hm; rw [h] at hm; cases hm
        · simpa [hq] using h
  · exact h

/-- A cache entry survives a whole capture run unchanged. -/
theorem cacheGet_detectFrom_mono (rs : List (String × String)) (s : DetectorState)
    (n c : String) (h : cacheGet s.cache n = some c) :
    cacheGet (detectFrom s rs).cache n = some c := by
  induction rs generalizing s with
  | nil => exact h
  | cons r rs ih => rw [detectFrom_cons]; exact ih _ (cacheGet_dns_detect _ _ _ _ h)

/-- A name not yet cached ends up mapped to the answer of the first record
that carries it (or stays absent when no record does). -/
theorem cacheGet_detectFrom_none (rs : List (String × String)) (s : DetectorState)
    (n : String) (h : cacheGet s.cache n = none) :
    cacheGet (detectFrom s rs).cache n = firstAnswer rs n := by
  induction rs generalizing s with
  | nil => exact h
  | cons r rs ih =>
      rw [detectFrom_cons]
      cases hm : cacheGet s.cache r.1 with
      | some cached =>
          have hq : r.1 ≠ n := by
            intro he; rw [he, h] at hm; cases hm
          have hfa : firstAnswer (r :: rs) n = firstAnswer rs n := by
            simp [firstAnswer, hq]
          rw [hfa]
          by_cases hne : cached = r.2
          · rw [detect_hit_eq s r.1 r.2 cached hm hne]
            exact ih _ h
          · rw [detect_hit_ne s r.1 r.2 cached hm hne]
            exact ih _ h
      | none =>
          rw [detect_miss s r.1 r.2 hm]
          by_cases hq : r.1 = n
          · have hfa : firstAnswer (r :: rs) n = some r.2 := by
              simp [firstAnswer, hq]
            rw [hfa]
            refine cacheGet_detectFrom_mono rs _ n r.2 ?_
            simp [cacheGet, hq]
          · have hfa : firstAnswer (r :: rs) n = firstAnswer rs n := by
              simp [firstAnswer, hq]
            rw [hfa]
            refine ih _ ?_
            simpa [cacheGet, hq] using h

/-- Every suspicion record in the log carries, as its middle component, the
address the cache holds for its name (the cache never changes once set, so
the detection-time cached address and the end-of-capture cached address
agree). -/
theorem suspicion_matches_cache (rs : List (String × String)) (s : DetectorState)
    (hinv : ∀ d c o, (d, c, o) ∈ s.suspicious_responses → cacheGet s.cache d = some c) :
    ∀ d c o, (d, c, o) ∈ (detectFrom s rs).suspicious_responses →
      cacheGet (detectFrom s rs).cache d = some c := by
  induction rs generalizing s with
  | nil => exact hinv
  | cons r rs ih =>
      rw [detectFrom_cons]
      cases hm : cacheGet s.cache r.1 with
      | some cached =>
          by_cases hne : cached = r.2
          · rw [detect_hit_eq s r.1 r.2 cached hm hne]
            exact ih _ hinv
          · rw [detect_hit_ne s r.1 r.2 cached hm hne]
            refine ih _ ?_
            intro d c o hmem
            simp only [List.mem_append, List.mem_singleton, Prod.mk.injEq] at hmem
            rcases hmem with hmem | ⟨h1, h2, _⟩
            · exact hinv d c o hmem
            · rw [h1, h2]
              exact hm
      | none =>
          rw [detect_miss s r.1 r.2 hm]
          refine ih _ ?_
          intro d c o hmem
          have hd := hinv d c o hmem
          simp only [cacheGet]
          by_cases hq : r.1 = d
          · rw [hq] at hm; rw [hd] at hm; cases hm
          · rw [if_neg hq]
            exact hd

/-! ### Claims about the detection phase -/

/-- C1: processing a response record `(n, a)` appends the suspicion record
`(n, c, a)` exactly when the cache already holds `c ≠ a` for `n`; a record
matching the cached address, or a record for an uncached name, appends
nothing. -/
theorem C1_suspicion_iff_divergence (s : DetectorState) (n a : String) :
    (∀ c, cacheGet s.cache n = some c → c ≠ a →
      (dns_detect s { hasDNSRR := true, qname := n, rdata := a }).suspicious_responses
        = s.suspicious_responses ++ [(n, c, a)])
    ∧ (∀ c, cacheGet s.cache n = some c → c = a →
      dns_detect s { hasDNSRR := true, qname := n, rdata := a } = s)
    ∧ (cacheGet s.cache n = none →
      (dns_detect s { hasDNSRR := true, qname := n, rdata := a }).suspicious_responses
        = s.suspicious_responses) := by
  refine ⟨fun c hc hne => ?_, fun c hc he => ?_, fun hc => ?_⟩
  · rw [dns_detect_record, hc]; simp [hne]
  · rw [dns_detect_record, hc]; simp [he]
  · rw [dns_detect_record, hc]

/-- C1 witness: the cache holds `1.1.1.1` for `foo.example.` and a record
with answer `2.2.2.2` arrives, appending one suspicion record. -/
theorem C1_witness :
    (dns_detect { cache := [("foo.example.", "1.1.1.1")], suspicious_responses := [] }
      { hasDNSRR := true, qname := "foo.example.", rdata := "2.2.2.2" }).suspicious_responses
      = [("foo.example.", "1.1.1.1", "2.2.2.2")] :=
  (C1_suspicion_iff_divergence _ "foo.example." "2.2.2.2").1 "1.1.1.1" (by decide) (by decide)

/-- C2: over any capture session, each name maps to the answer address of
the first record that carried it, and an address once cached is never
changed by later records (first-write-wins). -/
theorem C2_first_write_wins (rs : List (String × String)) (n : String) :
    cacheGet (processRecords rs).cache n = firstAnswer rs n
    ∧ (∀ (s : DetectorState) (ms : List (String × String)) (c : String),
        cacheGet s.cache n = some c → cacheGet (detectFrom s ms).cache n = some c) :=
  ⟨cacheGet_detectFrom_none rs initState n rfl,
   fun s ms c h => cacheGet_detectFrom_mono ms s n c h⟩

/-- C2 witness: after `(foo.example., 1.1.1.1)` then `(foo.example., 2.2.2.2)`
the cache still holds `1.1.1.1`, and an existing entry survives a later
record for the same name. -/
theorem C2_witness :
    cacheGet (processRecords
        [("foo.example.", "1.1.1.1"), ("foo.example.", "2.2.2.2")]).cache "foo.example."
      = firstAnswer [("foo.example.", "1.1.1.1"), ("foo.example.", "2.2.2.2")] "foo.example."
    ∧ cacheGet (detectFrom { cache := [("foo.example.", "1.1.1.1")], suspicious_responses := [] }
        [("foo.example.", "2.2.2.2")]).cache "foo.example." = some "1.1.1.1" :=
  ⟨(C2_first_write_wins _ _).1,
   (C2_first_write_wins [] "foo.example.").2 _ [("foo.example.", "2.2.2.2")] _ (by decide)⟩

/-- C9: a packet without a `DNSRR` layer leaves the detector state — cache
and suspicion log — completely unchanged. -/
theorem C9_no_dnsrr_frame (s : DetectorState) (p : Packet) (h : p.hasDNSRR = false) :
    dns_detect s p = s := by
  simp [dns_detect, h]

/-- C9 witness: a plain DNS query packet (no `DNSRR` layer) is a no-op. -/
theorem C9_witness :
    dns_detect { cache := [("foo.example.", "1.1.1.1")], suspicious_responses := [] }
      { hasDNSRR := false, qname := "bar.example.", rdata := "5.5.5.5" }
      = { cache := [("foo.example.", "1.1.1.1")], suspicious_responses := [] } :=
  C9_no_dnsrr_frame _ _ rfl

/-! ### Basic lemmas about the verification phase -/

/-- `verify_dns` returns the state it was given, on every path. -/
theorem verify_dns_fst (resolve : String → ResolveOutcome)
    (w : String → Option WhoisInfo) (a : String → Option AsnInfo)
    (s : DetectorState) (domain : String) :
    (verify_dns resolve w a s domain).1 = s := by
  unfold verify_dns
  split <;> try rfl
  split <;> try rfl
  split <;> rfl

theorem verify_dns_nxdomain (resolve : String → ResolveOutcome)
    (w : String → Option WhoisInfo) (a : String → Option AsnInfo)
    (s : DetectorState) (domain : String)
    (hr : resolve domain = ResolveOutcome.nxdomain) :
    verify_dns resolve w a s domain
      = (s, { result := none, confirmed := false, traceArgs := none }) := by
  simp [verify_dns, hr]

theorem verify_dns_failure_case (resolve : String → ResolveOutcome)
    (w : String → Option WhoisInfo) (a : String → Option AsnInfo)
    (s : DetectorState) (domain msg : String)
    (hr : resolve domain = ResolveOutcome.failure msg) :
    verify_dns resolve w a s domain
      = (s, { result := none, confirmed := false, traceArgs := none }) := by
  simp [verify_dns, hr]

theorem verify_dns_success_none (resolve : String → ResolveOutcome)
    (w : String → Option WhoisInfo) (a : String → Option AsnInfo)
    (s : DetectorState) (domain real_ip : String)
    (hr : resolve domain = ResolveOutcome.success real_ip)
    (hc : cacheGet s.cache domain = none) :
    verify_dns resolve w a s domain
      = (s, { result := some real_ip, confirmed := false, traceArgs := none }) := by
  simp [verify_dns, hr, hc]

theorem verify_dns_confirmed_case (resolve : String → ResolveOutcome)
    (w : String → Option WhoisInfo) (a : String → Option AsnInfo)
    (s : DetectorState) (domain real_ip cached : String)
    (hr : resolve domain = ResolveOutcome.success real_ip)
    (hc : cacheGet s.cache domain = some cached)
    (h1 : cached ≠ "") (h2 : real_ip ≠ cached) :
    verify_dns resolve w a s domain
      = (s, { result := some real_ip, confirmed := true,
              traceArgs := some (domain, real_ip, cached) }) := by
  simp [verify_dns, trace_actual_dns_st, hr, hc, h1, h2]

theorem verify_dns_unconfirmed_case (resolve : String → ResolveOutcome)
    (w : String → Option WhoisInfo) (a : String → Option AsnInfo)
    (s : DetectorState) (domain real_ip cached : String)
    (hr : resolve domain = ResolveOutcome.success real_ip)
    (hc : cacheGet s.cache domain = some cached)
    (h : ¬(cached ≠ "" ∧ real_ip ≠ cached)) :
    verify_dns resolve w a s domain
      = (s, { result := some real_ip, confirmed := false, traceArgs := none }) := by
  simp only [verify_dns, hr, hc]
  rw [if_neg h]

/-- Running the dispatched tasks leaves the shared state untouched. -/
theorem runTasks_fst (resolve : String → ResolveOutcome)
    (w : String → Option WhoisInfo) (a : String → Option AsnInfo)
    (s : DetectorState) (ds : List String) :
    (runTasks resolve w a s ds).1 = s := by
  induction ds generalizing s with
  | nil => rfl
  | cons d ds ih =>
      simp only [runTasks]
      rw [ih, verify_dns_fst]

/-- Each task's outcome is `verify_dns` evaluated against the original
state: no task affects another. -/
theorem runTasks_snd (resolve : String → ResolveOutcome)
    (w : String → Option WhoisInfo) (a : String → Option AsnInfo)
    (s : DetectorState) (ds : List String) :
    (runTasks resolve w a s ds).2
      = ds.map (fun d => (verify_dns resolve w a s d).2) := by
  induction ds generalizing s with
  | nil => rfl
  | cons d ds ih =>
      simp only [runTasks, List.map_cons]
      rw [verify_dns_fst, ih]

/-! ### Claims about the verification phase -/

/-- C3 counterexample: the claim says confirmation happens whenever the
resolver's answer differs from the cached address, but with a cached address
equal to the empty string (falsy in Python, `if cached_ip and ...`), a
differing resolver answer produces no confirmation and no attribution. -/
theorem C3_counterexample :
    (processRecords [("foo.example.", ""), ("foo.example.", "1.1.1.1")]).suspicious_responses
      = [("foo.example.", "", "1.1.1.1")]
    ∧ ("2.2.2.2" : String) ≠ ""
    ∧ (verify_dns (fun _ => ResolveOutcome.success "2.2.2.2") (fun _ => none) (fun _ => none)
        (processRecords [("foo.example.", ""), ("foo.example.", "1.1.1.1")])
        "foo.example.").2.confirmed = false
    ∧ (verify_dns (fun _ => ResolveOutcome.success "2.2.2.2") (fun _ => none) (fun _ => none)
        (processRecords [("foo.example.", ""), ("foo.example.", "1.1.1.1")])
        "foo.example.").2.traceArgs = none := by
  decide

/-- C3 (amended): when the trusted resolver succeeds for a name the cache
holds, the suspicion is confirmed iff the cached address is non-empty
(Python truthiness) and differs from the resolver's answer; attribution is
invoked exactly on confirmation; and the cached address read at verification
time is the one recorded at detection time (each suspicion record's middle
component is what the cache holds for its name). -/
theorem C3_confirm_iff (resolve : String → ResolveOutcome)
    (w : String → Option WhoisInfo) (a : String → Option AsnInfo)
    (s : DetectorState) (domain real_ip cached : String)
    (hr : resolve domain = ResolveOutcome.success real_ip)
    (hc : cacheGet s.cache domain = some cached) :
    ((verify_dns resolve w a s domain).2.confirmed = true
        ↔ cached ≠ "" ∧ real_ip ≠ cached)
    ∧ ((verify_dns resolve w a s domain).2.confirmed = true →
        (verify_dns resolve w a s domain).2.traceArgs = some (domain, real_ip, cached))
    ∧ ((verify_dns resolve w a s domain).2.confirmed = false →
        (verify_dns resolve w a s domain).2.traceArgs = none)
    ∧ (∀ (rs : List (String × String)) (d c o : String),
        (d, c, o) ∈ (processRecords rs).suspicious_responses →
          cacheGet (processRecords rs).cache d = some c) := by
  have hlast : ∀ (rs : List (String × String)) (d c o : String),
      (d, c, o) ∈ (processRecords rs).suspicious_responses →
        cacheGet (processRecords rs).cache d = some c := by
    intro rs
    exact suspicion_matches_cache rs initState (fun d c o h => nomatch h)
  by_cases hcond : cached ≠ "" ∧ real_ip ≠ cached
  · rw [verify_dns_confirmed_case resolve w a s domain real_ip cached hr hc hcond.1 hcond.2]
    refine ⟨by simpa using hcond, fun _ => rfl, fun hfalse => ?_, hlast⟩
    cases hfalse
  · rw [verify_dns_unconfirmed_case resolve w a s domain real_ip cached hr hc hcond]
    refine ⟨by simpa using hcond, fun htrue => ?_, fun _ => rfl, hlast⟩
    cases htrue

/-- C3 witness: scenario 2's suspicion with resolver answer `3.3.3.3`
confirms (cached `1.1.1.1` is non-empty and differs). -/
theorem C3_witness :
    ((verify_dns (fun _ => ResolveOutcome.success "3.3.3.3") (fun _ => none) (fun _ => none)
        (processRecords [("foo.example.", "1.1.1.1"), ("foo.example.", "2.2.2.2")])
        "foo.example.").2.confirmed = true
      ↔ ("1.1.1.1" : String) ≠ "" ∧ ("3.3.3.3" : String) ≠ "1.1.1.1") :=
  (C3_confirm_iff (fun _ => ResolveOutcome.success "3.3.3.3") (fun _ => none) (fun _ => none)
    (processRecords [("foo.example.", "1.1.1.1"), ("foo.example.", "2.2.2.2")])
    "foo.example." "3.3.3.3" "1.1.1.1" rfl (by decide)).1

/-- C4 counterexample: after scenario 2's suspicion
`(foo.example., 1.1.1.1, 2.2.2.2)`, a confirming resolver answer `3.3.3.3`
makes `verify_dns` call `trace_actual_dns(domain, real_ip, cached_ip)` —
the ASN lookups target the resolver's answer `3.3.3.3` and the cached
`1.1.1.1`, never the suspicion record's observed address `2.2.2.2` (which
`verify_suspicious_responses` throws away). -/
theorem C4_counterexample :
    (processRecords [("foo.example.", "1.1.1.1"), ("foo.example.", "2.2.2.2")]).suspicious_responses
      = [("foo.example.", "1.1.1.1", "2.2.2.2")]
    ∧ (verify_dns (fun _ => ResolveOutcome.success "3.3.3.3") (fun _ => none)
        (fun ip => some { asn := some ip, asn_description := none })
        (processRecords [("foo.example.", "1.1.1.1"), ("foo.example.", "2.2.2.2")])
        "foo.example.").2.confirmed = true
    ∧ (verify_dns (fun _ => ResolveOutcome.success "3.3.3.3") (fun _ => none)
        (fun ip => some { asn := some ip, asn_description := none })
        (processRecords [("foo.example.", "1.1.1.1"), ("foo.example.", "2.2.2.2")])
        "foo.example.").2.traceArgs = some ("foo.example.", "3.3.3.3", "1.1.1.1")
    ∧ trace_actual_dns (fun _ => none)
        (fun ip => some { asn := some ip, asn_description := none })
        "foo.example." "3.3.3.3" "1.1.1.1"
        = { domainInfo := none,
            realIpInfo := some { asn := some "3.3.3.3", asn_description := none },
            spoofedIpInfo := some { asn := some "1.1.1.1", asn_description := none } }
    ∧ ("2.2.2.2" : String) ≠ "3.3.3.3" ∧ ("2.2.2.2" : String) ≠ "1.1.1.1" := by
  decide

/-- C4 (amended): for every confirmed spoof, attribution receives the name,
the trusted resolver's answer and the cached address — not the suspicion
record's observed address — and performs the registrar lookup on the name
and the ASN lookups on those two addresses. -/
theorem C4_attribution_targets (resolve : String → ResolveOutcome)
    (w : String → Option WhoisInfo) (a : String → Option AsnInfo)
    (s : DetectorState) (domain real_ip cached : String)
    (hr : resolve domain = ResolveOutcome.success real_ip)
    (hc : cacheGet s.cache domain = some cached)
    (h1 : cached ≠ "") (h2 : real_ip ≠ cached) :
    (verify_dns resolve w a s domain).2.traceArgs = some (domain, real_ip, cached)
    ∧ trace_actual_dns w a domain real_ip cached
        = { domainInfo := w domain, realIpInfo := a real_ip, spoofedIpInfo := a cached } := by
  refine ⟨?_, rfl⟩
  rw [verify_dns_confirmed_case resolve w a s domain real_ip cached hr hc h1 h2]

/-- C4 witness: concrete confirmed spoof, attribution targets as stated. -/
theorem C4_witness :
    (verify_dns (fun _ => ResolveOutcome.success "3.3.3.3") (fun _ => none) (fun _ => none)
        { cache := [("foo.example.", "1.1.1.1")], suspicious_responses := [] }
        "foo.example.").2.traceArgs = some ("foo.example.", "3.3.3.3", "1.1.1.1")
    ∧ trace_actual_dns (fun _ => none) (fun _ => none) "foo.example." "3.3.3.3" "1.1.1.1"
        = { domainInfo := none, realIpInfo := none, spoofedIpInfo := none } :=
  C4_attribution_targets (fun _ => ResolveOutcome.success "3.3.3.3") (fun _ => none)
    (fun _ => none) { cache := [("foo.example.", "1.1.1.1")], suspicious_responses := [] }
    "foo.example." "3.3.3.3" "1.1.1.1" rfl (by decide) (by decide) (by decide)

/-- C5 counterexample: a name that diverges twice yields two suspicion
records, and `verify_suspicious_responses` dispatches one task per record:
the single distinct name `a.example.` is verified twice, not once. -/
theorem C5_counterexample :
    verificationTasks (processRecords
        [("a.example.", "1.1.1.1"), ("a.example.", "2.2.2.2"), ("a.example.", "3.3.3.3")])
      = ["a.example.", "a.example."]
    ∧ (verify_suspicious_responses (fun _ => ResolveOutcome.success "9.9.9.9")
        (fun _ => none) (fun _ => none)
        (processRecords
          [("a.example.", "1.1.1.1"), ("a.example.", "2.2.2.2"), ("a.example.", "3.3.3.3")])).2.length
      = 2
    ∧ (["a.example.", "a.example."] : List String).dedup = ["a.example."]
    ∧ (2 : Nat) ≠ 1 := by
  decide

/-- C5 (amended): the verification phase dispatches exactly one task per
`SuspicionRecord` — in log order, carrying only the record's name, so a name
with several records is verified once per record — on a pool whose
`max_workers` bound is 5, and one outcome is collected per dispatched task. -/
theorem C5_tasks_per_record (resolve : String → ResolveOutcome)
    (w : String → Option WhoisInfo) (a : String → Option AsnInfo)
    (s : DetectorState) :
    verificationTasks s = s.suspicious_responses.map (fun r => r.1)
    ∧ (verify_suspicious_responses resolve w a s).2.length = s.suspicious_responses.length
    ∧ max_workers = 5 := by
  refine ⟨rfl, ?_, rfl⟩
  unfold verify_suspicious_responses
  rw [runTasks_snd, List.length_map]
  simp [verificationTasks]

/-- C6: neither `verify_dns` nor `trace_actual_dns` — nor the whole
verification phase — changes the response cache, on any execution path. -/
theorem C6_verification_frame (resolve : String → ResolveOutcome)
    (w : String → Option WhoisInfo) (a : String → Option AsnInfo)
    (s : DetectorState) (domain real_ip spoofed_ip : String) :
    (trace_actual_dns_st w a s domain real_ip spoofed_ip).1.cache = s.cache
    ∧ (verify_dns resolve w a s domain).1.cache = s.cache
    ∧ (verify_suspicious_responses resolve w a s).1.cache = s.cache := by
  refine ⟨rfl, ?_, ?_⟩
  · rw [verify_dns_fst]
  · unfold verify_suspicious_responses
    rw [runTasks_fst]

/-- C7: the three attribution sub-lookups are independent: each report field
equals its own oracle's result, a raised WHOIS lookup (oracle `none`) still
leaves both ASN fields intact, and a field never depends on another block's
oracle. -/
theorem C7_independent_lookups (w w2 : String → Option WhoisInfo)
    (a a2 : String → Option AsnInfo) (domain real_ip spoofed_ip : String) :
    (trace_actual_dns w a domain real_ip spoofed_ip).domainInfo = w domain
    ∧ (trace_actual_dns w a domain real_ip spoofed_ip).realIpInfo = a real_ip
    ∧ (trace_actual_dns w a domain real_ip spoofed_ip).spoofedIpInfo = a spoofed_ip
    ∧ (w domain = none →
        trace_actual_dns w a domain real_ip spoofed_ip
          = { domainInfo := none, realIpInfo := a real_ip, spoofedIpInfo := a spoofed_ip })
    ∧ (trace_actual_dns w a domain real_ip spoofed_ip).realIpInfo
        = (trace_actual_dns w2 a domain real_ip spoofed_ip).realIpInfo
    ∧ (trace_actual_dns w a domain real_ip spoofed_ip).domainInfo
        = (trace_actual_dns w a2 domain real_ip spoofed_ip).domainInfo := by
  refine ⟨rfl, rfl, rfl, fun h => ?_, rfl, rfl⟩
  simp [trace_actual_dns, h]

/-- C7 witness: a failing WHOIS lookup leaves both ASN fields present. -/
theorem C7_witness :
    trace_actual_dns (fun _ => none)
      (fun ip => some { asn := some ip, asn_description := some "AS-DESC" })
      "foo.example." "3.3.3.3" "1.1.1.1"
      = { domainInfo := none,
          realIpInfo := some { asn := some "3.3.3.3", asn_description := some "AS-DESC" },
          spoofedIpInfo := some { asn := some "1.1.1.1", asn_description := some "AS-DESC" } } :=
  (C7_independent_lookups (fun _ => none) (fun _ => none)
    (fun ip => some { asn := some ip, asn_description := some "AS-DESC" }) (fun _ => none)
    "foo.example." "3.3.3.3" "1.1.1.1").2.2.2.1 rfl

/-- C8: `NXDOMAIN` and every other resolver failure are caught inside
`verify_dns`: the call returns `None`, never confirms, never reaches
attribution, and every dispatched task's outcome is `verify_dns` of its
own name against the shared state — one name's failure cannot disturb the
remaining names' verification. -/
theorem C8_errors_isolated (resolve : String → ResolveOutcome)
    (w : String → Option WhoisInfo) (a : String → Option AsnInfo)
    (s : DetectorState) (domain : String) :
    (resolve domain = ResolveOutcome.nxdomain →
      verify_dns resolve w a s domain
        = (s, { result := none, confirmed := false, traceArgs := none }))
    ∧ (∀ msg, resolve domain = ResolveOutcome.failure msg →
      verify_dns resolve w a s domain
        = (s, { result := none, confirmed := false, traceArgs := none }))
    ∧ (verify_suspicious_responses resolve w a s).2
        = (verificationTasks s).map (fun d => (verify_dns resolve w a s d).2) := by
  refine ⟨fun h => verify_dns_nxdomain resolve w a s domain h,
    fun msg h => verify_dns_failure_case resolve w a s domain msg h, ?_⟩
  unfold verify_suspicious_responses
  rw [runTasks_snd]

/-- C8 witness: a resolver reporting non-existence, and one failing with a
timeout, both yield `(s, none, unconfirmed, no attribution)`. -/
theorem C8_witness :
    verify_dns (fun _ => ResolveOutcome.nxdomain) (fun _ => none) (fun _ => none)
      { cache := [("gone.example.", "1.1.1.1")], suspicious_responses := [] } "gone.example."
      = ({ cache := [("gone.example.", "1.1.1.1")], suspicious_responses := [] },
         { result := none, confirmed := false, traceArgs := none })
    ∧ verify_dns (fun _ => ResolveOutcome.failure "timeout") (fun _ => none) (fun _ => none)
        { cache := [("err.example.", "2.2.2.2")], suspicious_responses := [] } "err.example."
      = ({ cache := [("err.example.", "2.2.2.2")], suspicious_responses := [] },
         { result := none, confirmed := false, traceArgs := none }) :=
  ⟨(C8_errors_isolated (fun _ => ResolveOutcome.nxdomain) (fun _ => none) (fun _ => none)
      { cache := [("gone.example.", "1.1.1.1")], suspicious_responses := [] }
      "gone.example.").1 rfl,
   (C8_errors_isolated (fun _ => ResolveOutcome.failure "timeout") (fun _ => none) (fun _ => none)
      { cache := [("err.example.", "2.2.2.2")], suspicious_responses := [] }
      "err.example.").2.1 "timeout" rfl⟩

/-- C10: for a domain absent from the cache, a successful resolution returns
the resolved address with the confirmation branch unreachable: no confirmed
spoof is reported and `trace_actual_dns` is never invoked. -/
theorem C10_uncached_never_confirms (resolve : String → ResolveOutcome)
    (w : String → Option WhoisInfo) (a : String → Option AsnInfo)
    (s : DetectorState) (domain real_ip : String)
    (hr : resolve domain = ResolveOutcome.success real_ip)
    (hc : cacheGet s.cache domain = none) :
    verify_dns resolve w a s domain
      = (s, { result := some real_ip, confirmed := false, traceArgs := none }) :=
  verify_dns_success_none resolve w a s domain real_ip hr hc

/-- C10 witness: an uncached domain resolved to `1.2.3.4` returns that
address, unconfirmed, without attribution. -/
theorem C10_witness :
    verify_dns (fun _ => ResolveOutcome.success "1.2.3.4") (fun _ => none) (fun _ => none)
      { cache := [("other.example.", "5.5.5.5")], suspicious_responses := [] } "foo.example."
      = ({ cache := [("other.example.", "5.5.5.5")], suspicious_responses := [] },
         { result := some "1.2.3.4", confirmed := false, traceArgs := none }) :=
  C10_uncached_never_confirms (fun _ => ResolveOutcome.success "1.2.3.4") (fun _ => none)
    (fun _ => none) { cache := [("other.example.", "5.5.5.5")], suspicious_responses := [] }
    "foo.example." "1.2.3.4" rfl (by decide)
